import Mathlib

/-!
SynapseGo: request dispatch and resource facade.

A shallow embedding of `client.go` (package `synapse`) and
`wrapper/transactions.go` (package `wrapper`).

`client.go` uses several members of its package that are declared in other
files: the `Request` type with its methods `updateRequest`, `Get`, `Post`,
`Patch`, `Delete`, the function `read`, the function `buildURL`, the URL
constants, the `User` type, and the library call `mapstructure.Decode`.
They are taken as parameters (`Deps`), so every theorem holds for whatever
those members do.

Effects are made explicit:
* the remote service is a state `W` threaded through the four request
  operations;
* `Net.trace` logs every entry into `Client.do` and every request operation
  it invokes, in order;
* the process-wide variable `developerMode` is passed in and returned by `New`.
-/

namespace synapse

/-- Go `error` values: `none` is `nil`, `some msg` a non-nil error. -/
abbrev GoError := Option String

/-- Go `[]byte`; the nil slice is `[]`. -/
abbrev Bytes := List UInt8

/-- The struct `Client` of `client.go`. -/
structure Client (Request : Type) where
  ClientID : String
  ClientSecret : String
  Fingerprint : String
  IP : String
  request : Request

/-- One entry of the call log. `dispatch` marks an entry into `Client.do` with
the arguments it received; the other four are the request operations, each with
the receiver and the arguments it was invoked on. -/
inductive Event (Request : Type) where
  | dispatch (method url data : String) (queryParams : List String)
  | get (receiver : Request) (url : String) (queryParams : List String)
  | post (receiver : Request) (url data : String) (queryParams : List String)
  | patch (receiver : Request) (url data : String) (queryParams : List String)
  | delete (receiver : Request) (url : String)
  deriving DecidableEq

/-- Whether an event is one of the four request operations. -/
def Event.isOperation {Request : Type} : Event Request → Bool
  | .dispatch _ _ _ _ => false
  | _ => true

/-- The request state a request operation was invoked on. -/
def Event.receiver? {Request : Type} : Event Request → Option Request
  | .dispatch _ _ _ _ => none
  | .get r _ _ => some r
  | .post r _ _ _ => some r
  | .patch r _ _ _ => some r
  | .delete r _ => some r

/-- The remote service together with the log of calls made so far. -/
structure Net (W Request : Type) where
  world : W
  trace : List (Event Request)

/-- What a request operation hands back: the `([]byte, error)` pair, the state
in which it leaves its receiver (the same as before for a value receiver), and
the remote service afterwards. -/
structure OpResult (W Request : Type) where
  body : Bytes
  err : GoError
  request : Request
  world : W

/-- The exported fields of `User`, the ones `mapstructure.Decode` can write:
`FullDehydrate`, `Response`, and the remaining named fields as `named`. -/
structure Exported (F Resp : Type) where
  named : F
  FullDehydrate : Bool
  Response : Resp

/-- The struct `User`: its exported fields and the unexported `request`, which
reflection-based decoding cannot set. -/
structure User (F Request Resp : Type) extends Exported F Resp where
  request : Request

/-- The members of package `synapse` that `client.go` uses and that are
declared outside it, and the library call `mapstructure.Decode`. -/
structure Deps (W Request Resp F : Type) where
  updateRequest : Request → String → String → String → String → Request
  Get : Request → String → List String → W → OpResult W Request
  Post : Request → String → String → List String → W → OpResult W Request
  Patch : Request → String → String → List String → W → OpResult W Request
  Delete : Request → String → W → OpResult W Request
  read : Bytes → Resp
  buildURL : String → String → String
  clientURL : String
  usersURL : String
  Decode : Resp → Exported F Resp → Exported F Resp × GoError

/-- The result of a method of `*Client`: the returned pair, the client as the
method leaves it, and the remote service with the call log. -/
structure Outcome (α W Request : Type) where
  value : α
  err : GoError
  client : Client Request
  net : Net W Request

section client_go

variable {W Request Resp F : Type}

/-- Assemble the outcome of one request operation inside `Client.do`. -/
def finishOp (env : Deps W Request Resp F) (c : Client Request)
    (trace : List (Event Request)) (ev : Event Request) (r : OpResult W Request) :
    Outcome Resp W Request :=
  { value := env.read r.body
    err := r.err
    client := { c with request := r.request }
    net := { world := r.world, trace := trace ++ [ev] } }

/-- Method `func (c *Client) do(method, url, data string, queryParams []string)`.
The switch has no default branch: for any other verb `body` and `err` keep
their zero values. -/
def Client.do (env : Deps W Request Resp F) (c : Client Request)
    (method url data : String) (queryParams : List String) (net : Net W Request) :
    Outcome Resp W Request :=
  let trace := net.trace ++ [Event.dispatch method url data queryParams]
  let c : Client Request :=
    { c with request := env.updateRequest c.request c.ClientID c.ClientSecret c.Fingerprint c.IP }
  if method = "GET" then
    finishOp env c trace (.get c.request url queryParams)
      (env.Get c.request url queryParams net.world)
  else if method = "POST" then
    finishOp env c trace (.post c.request url data queryParams)
      (env.Post c.request url data queryParams net.world)
  else if method = "PATCH" then
    finishOp env c trace (.patch c.request url data queryParams)
      (env.Patch c.request url data queryParams net.world)
  else if method = "DELETE" then
    finishOp env c trace (.delete c.request url)
      (env.Delete c.request url net.world)
  else
    { value := env.read [], err := none, client := c,
      net := { world := net.world, trace := trace } }

/-- Function `func New(clientID, clientSecret, ipAddress, fingerprint string, devMode ...bool)`,
with the package variable `developerMode` passed in and returned. -/
def New [Inhabited Request] (clientID clientSecret ipAddress fingerprint : String)
    (devMode : List Bool) (developerMode : Bool) : Client Request × Bool :=
  let developerMode :=
    if h : devMode.length > 0 then
      if devMode[0] == true then true else developerMode
    else developerMode
  ({ ClientID := clientID
     ClientSecret := clientSecret
     Fingerprint := fingerprint
     IP := ipAddress
     request := default }, developerMode)

/-- Method `func (c *Client) GetPublicKey(scope ...string)`. -/
def Client.GetPublicKey (env : Deps W Request Resp F) (c : Client Request)
    (scope : List String) (net : Net W Request) : Outcome Resp W Request :=
  let url := env.clientURL ++ "?issue_public_key=YES&scope="
  let defaultScope := "OAUTH|POST,USERS|POST,USERS|GET,USER|GET,USER|PATCH,SUBSCRIPTIONS|GET,SUBSCRIPTIONS|POST,SUBSCRIPTION|GET,SUBSCRIPTION|PATCH,CLIENT|REPORTS,CLIENT|CONTROLS"
  let defaultScope := if h : scope.length > 0 then scope[0] else defaultScope
  let url := url ++ defaultScope
  Client.do env c "GET" url "" [] net

/-- The zero value of `User` (`var user User`). -/
def User.zero [Inhabited Request] [Inhabited Resp] [Inhabited F] : User F Request Resp :=
  { named := default, FullDehydrate := false, Response := default, request := default }

/-- Method `func (c *Client) GetUser(UserID string, fullDehydrate bool, queryParams ...string)`.
The returned `*User` is `some user`; `none` would be the nil pointer. -/
def Client.GetUser [Inhabited Request] [Inhabited Resp] [Inhabited F]
    (env : Deps W Request Resp F) (c : Client Request)
    (UserID : String) (fullDehydrate : Bool) (queryParams : List String)
    (net : Net W Request) : Outcome (Option (User F Request Resp)) W Request :=
  let user : User F Request Resp := User.zero
  let url := env.buildURL env.usersURL UserID
  let url := if fullDehydrate != true then url ++ "?full_dehydrate=yes" else url
  let r := Client.do env c "GET" url "" queryParams net
  let res := r.value
  let err := r.err
  let c := r.client
  let user := { user with toExported := (env.Decode res user.toExported).1 }
  let user := { user with
    request := env.updateRequest user.request c.ClientID c.ClientSecret c.Fingerprint c.IP }
  let user := { user with FullDehydrate := fullDehydrate }
  let user := { user with Response := res }
  { value := some user, err := err, client := c, net := r.net }

/-- Method `func (c *Client) CreateUser(data string, queryParams ...string)`. -/
def Client.CreateUser [Inhabited Request] [Inhabited Resp] [Inhabited F]
    (env : Deps W Request Resp F) (c : Client Request)
    (data : String) (queryParams : List String)
    (net : Net W Request) : Outcome (Option (User F Request Resp)) W Request :=
  let user : User F Request Resp := User.zero
  let r := Client.do env c "POST" env.usersURL data queryParams net
  let res := r.value
  let err := r.err
  let c := r.client
  let user := { user with toExported := (env.Decode res user.toExported).1 }
  let user := { user with
    request := env.updateRequest user.request c.ClientID c.ClientSecret c.Fingerprint c.IP }
  let user := { user with Response := res }
  { value := some user, err := err, client := c, net := r.net }

end client_go

/-- The effect on `developerMode` of a sequence of calls of `New`, each given
by its `devMode` arguments, starting from the value `developerMode`. -/
def developerModeAfter (calls : List (List Bool)) (developerMode : Bool) : Bool :=
  calls.foldl (fun flag devMode => (New "" "" "" "" devMode flag : Client Unit × Bool).2)
    developerMode

/-! ### The request state as the spec describes it -/

/-- Modelled from the spec: the type `Request` is declared outside `client.go`.
The spec has the request state of a call (its RequestContext) derived from the
client credentials and carrying the four authentication fields: client id,
client secret, fingerprint and ip. -/
structure RequestContext where
  clientID : String
  clientSecret : String
  fingerprint : String
  ipAddress : String
  deriving DecidableEq

/-- Modelled from the spec: the method `updateRequest` of `Request` is declared
outside `client.go`. The spec has it re-derive the authenticated request state
from the credential fields it is given (client id, secret, fingerprint, ip), on
every call; the arguments are in the order `client.go` passes them. -/
def RequestContext.updateRequest (_req : RequestContext)
    (clientID clientSecret fingerprint ipAddress : String) : RequestContext :=
  { clientID := clientID, clientSecret := clientSecret, fingerprint := fingerprint,
    ipAddress := ipAddress }

/-- The package members with `updateRequest` as the spec describes it and every
other member as given. -/
def withSpecUpdateRequest {W Resp F : Type} (env : Deps W RequestContext Resp F) :
    Deps W RequestContext Resp F :=
  { env with updateRequest := RequestContext.updateRequest }

/-! ### A concrete instance

Used to evaluate the operations on concrete inputs. The request state is the
list of the four credential values, the remote service counts the round trips
and answers every call with the one-byte body `[1]` and no error, `read` is
the identity, and decoding a non-empty response fills in the name `"partial"`
and reports an error. -/

/-- A request operation of the concrete instance. -/
def loopbackOp (r : List String) (w : Nat) : OpResult Nat (List String) :=
  { body := [1], err := none, request := r, world := w + 1 }

/-- The concrete instance of the package members `client.go` depends on. -/
def loopback : Deps Nat (List String) Bytes String where
  updateRequest := fun _ clientID clientSecret fingerprint ip =>
    [clientID, clientSecret, fingerprint, ip]
  Get := fun r _ _ w => loopbackOp r w
  Post := fun r _ _ _ w => loopbackOp r w
  Patch := fun r _ _ _ w => loopbackOp r w
  Delete := fun r _ w => loopbackOp r w
  read := fun body => body
  buildURL := fun base path => base ++ "/" ++ path
  clientURL := "/client"
  usersURL := "/users"
  Decode := fun res user =>
    if res = [] then (user, none)
    else ({ user with named := "partial" }, some "cannot decode")

/-- A client of the concrete instance. -/
def client0 : Client (List String) :=
  { ClientID := "id", ClientSecret := "secret", Fingerprint := "fp", IP := "127.0.0.1",
    request := [] }

/-- The initial remote service: no round trips, empty log. -/
def net0 : Net Nat (List String) := { world := 0, trace := [] }

end synapse

namespace wrapper

/-- The members of package `wrapper` that `transactions.go` uses and that are
declared outside it. `handleRequestMulti` takes the credentials, the method,
the URL, the result key and the parameters. -/
structure Env (ClientCredentials Users Params : Type) where
  _url : String
  _usersURL : String
  handleRequestMulti : ClientCredentials → String → String → String → Params → Users

variable {ClientCredentials Users Params : Type}

/-- Constant `const _clientTransactionsURL = _url + "/trans"`. -/
def _clientTransactionsURL (env : Env ClientCredentials Users Params) : String :=
  env._url ++ "/trans"

/-- Function `func GetClientTransactions(cred ClientCredentials) Users`; the `nil`
argument is the zero value of the parameter type. -/
def GetClientTransactions [Inhabited Params] (env : Env ClientCredentials Users Params)
    (cred : ClientCredentials) : Users :=
  env.handleRequestMulti cred "GET" (_clientTransactionsURL env) "trans" default

/-- Function `func GetUserTransactions(cred ClientCredentials, userID string) Users`. -/
def GetUserTransactions [Inhabited Params] (env : Env ClientCredentials Users Params)
    (cred : ClientCredentials) (userID : String) : Users :=
  let url := env._usersURL ++ "/" ++ userID ++ "/trans"
  env.handleRequestMulti cred "GET" url "trans" default

end wrapper

namespace synapse

section theorems

variable {W Request Resp F : Type}

/-! ### Shape of one dispatch -/

theorem do_get (env : Deps W Request Resp F) (c : Client Request)
    (url data : String) (queryParams : List String) (net : Net W Request) :
    Client.do env c "GET" url data queryParams net =
      finishOp env
        { c with request := env.updateRequest c.request c.ClientID c.ClientSecret c.Fingerprint c.IP }
        (net.trace ++ [Event.dispatch "GET" url data queryParams])
        (.get (env.updateRequest c.request c.ClientID c.ClientSecret c.Fingerprint c.IP)
          url queryParams)
        (env.Get (env.updateRequest c.request c.ClientID c.ClientSecret c.Fingerprint c.IP)
          url queryParams net.world) := by
  simp [Client.do]

theorem do_post (env : Deps W Request Resp F) (c : Client Request)
    (url data : String) (queryParams : List String) (net : Net W Request) :
    Client.do env c "POST" url data queryParams net =
      finishOp env
        { c with request := env.updateRequest c.request c.ClientID c.ClientSecret c.Fingerprint c.IP }
        (net.trace ++ [Event.dispatch "POST" url data queryParams])
        (.post (env.updateRequest c.request c.ClientID c.ClientSecret c.Fingerprint c.IP)
          url data queryParams)
        (env.Post (env.updateRequest c.request c.ClientID c.ClientSecret c.Fingerprint c.IP)
          url data queryParams net.world) := by
  simp [Client.do]

theorem do_patch (env : Deps W Request Resp F) (c : Client Request)
    (url data : String) (queryParams : List String) (net : Net W Request) :
    Client.do env c "PATCH" url data queryParams net =
      finishOp env
        { c with request := env.updateRequest c.request c.ClientID c.ClientSecret c.Fingerprint c.IP }
        (net.trace ++ [Event.dispatch "PATCH" url data queryParams])
        (.patch (env.updateRequest c.request c.ClientID c.ClientSecret c.Fingerprint c.IP)
          url data queryParams)
        (env.Patch (env.updateRequest c.request c.ClientID c.ClientSecret c.Fingerprint c.IP)
          url data queryParams net.world) := by
  simp [Client.do]

theorem do_delete (env : Deps W Request Resp F) (c : Client Request)
    (url data : String) (queryParams : List String) (net : Net W Request) :
    Client.do env c "DELETE" url data queryParams net =
      finishOp env
        { c with request := env.updateRequest c.request c.ClientID c.ClientSecret c.Fingerprint c.IP }
        (net.trace ++ [Event.dispatch "DELETE" url data queryParams])
        (.delete (env.updateRequest c.request c.ClientID c.ClientSecret c.Fingerprint c.IP) url)
        (env.Delete (env.updateRequest c.request c.ClientID c.ClientSecret c.Fingerprint c.IP)
          url net.world) := by
  simp [Client.do]

theorem do_other (env : Deps W Request Resp F) (c : Client Request)
    (method url data : String) (queryParams : List String) (net : Net W Request)
    (h : method ∉ ["GET", "POST", "PATCH", "DELETE"]) :
    Client.do env c method url data queryParams net =
      { value := env.read [], err := none
        client := { c with
          request := env.updateRequest c.request c.ClientID c.ClientSecret c.Fingerprint c.IP }
        net := { world := net.world
                 trace := net.trace ++ [Event.dispatch method url data queryParams] } } := by
  simp only [List.mem_cons, List.mem_singleton, List.not_mem_nil, or_false, not_or] at h
  obtain ⟨h1, h2, h3, h4⟩ := h
  simp [Client.do, h1, h2, h3, h4]

/-- The events `Client.do` appends to the log: its own entry, then at most one
request operation, whose receiver is the refreshed request state. -/
theorem do_trace_cases (env : Deps W Request Resp F) (c : Client Request)
    (method url data : String) (queryParams : List String) (net : Net W Request) :
    (Client.do env c method url data queryParams net).net.trace =
        net.trace ++ [Event.dispatch method url data queryParams] ∨
    ∃ e : Event Request, e.isOperation = true ∧
      e.receiver? =
        some (env.updateRequest c.request c.ClientID c.ClientSecret c.Fingerprint c.IP) ∧
      (Client.do env c method url data queryParams net).net.trace =
        net.trace ++ [Event.dispatch method url data queryParams, e] := by
  unfold Client.do
  simp only []
  split_ifs
  · refine Or.inr ⟨.get _ url queryParams, rfl, rfl, ?_⟩
    simp [finishOp]
  · refine Or.inr ⟨.post _ url data queryParams, rfl, rfl, ?_⟩
    simp [finishOp]
  · refine Or.inr ⟨.patch _ url data queryParams, rfl, rfl, ?_⟩
    simp [finishOp]
  · refine Or.inr ⟨.delete _ url, rfl, rfl, ?_⟩
    simp [finishOp]
  · exact Or.inl rfl

/-- Every request operation that `Client.do` adds to the log was invoked on the
request state refreshed from the client's current credential fields. -/
theorem do_new_operations (env : Deps W Request Resp F) (c : Client Request)
    (method url data : String) (queryParams : List String) (net : Net W Request)
    (e : Event Request)
    (he : e ∈ (Client.do env c method url data queryParams net).net.trace.drop net.trace.length)
    (hop : e.isOperation = true) :
    e.receiver? =
      some (env.updateRequest c.request c.ClientID c.ClientSecret c.Fingerprint c.IP) := by
  rcases do_trace_cases env c method url data queryParams net with h | ⟨e', _, hr, h⟩
  · rw [h, List.drop_left] at he
    simp only [List.mem_singleton] at he
    subst he
    simp [Event.isOperation] at hop
  · rw [h, List.drop_left] at he
    simp only [List.mem_cons, List.mem_singleton, List.not_mem_nil, or_false] at he
    rcases he with he | he
    · subst he
      simp [Event.isOperation] at hop
    · subst he
      exact hr

/-- The log only grows: what was logged before a dispatch is still its prefix. -/
theorem do_trace_extends (env : Deps W Request Resp F) (c : Client Request)
    (method url data : String) (queryParams : List String) (net : Net W Request) :
    (Client.do env c method url data queryParams net).net.trace.take net.trace.length =
      net.trace := by
  rcases do_trace_cases env c method url data queryParams net with h | ⟨e', _, _, h⟩
  · rw [h, List.take_left]
  · rw [h, List.take_left]

/-- The credential fields of the client are not touched by a dispatch. -/
theorem do_credentials (env : Deps W Request Resp F) (c : Client Request)
    (method url data : String) (queryParams : List String) (net : Net W Request) :
    (Client.do env c method url data queryParams net).client.ClientID = c.ClientID ∧
    (Client.do env c method url data queryParams net).client.ClientSecret = c.ClientSecret ∧
    (Client.do env c method url data queryParams net).client.Fingerprint = c.Fingerprint ∧
    (Client.do env c method url data queryParams net).client.IP = c.IP := by
  unfold Client.do
  simp only []
  split_ifs <;> simp [finishOp]

/-- The number of request operations among the events a dispatch adds. -/
theorem do_operation_count (env : Deps W Request Resp F) (c : Client Request)
    (method url data : String) (queryParams : List String) (net : Net W Request) :
    (((Client.do env c method url data queryParams net).net.trace.drop
        net.trace.length).filter Event.isOperation).length =
      if method ∈ ["GET", "POST", "PATCH", "DELETE"] then 1 else 0 := by
  by_cases h : method ∈ ["GET", "POST", "PATCH", "DELETE"]
  · rw [if_pos h]
    simp only [List.mem_cons, List.mem_singleton, List.not_mem_nil, or_false] at h
    rcases h with rfl | rfl | rfl | rfl
    · simp [do_get, finishOp, Event.isOperation]
    · simp [do_post, finishOp, Event.isOperation]
    · simp [do_patch, finishOp, Event.isOperation]
    · simp [do_delete, finishOp, Event.isOperation]
  · rw [if_neg h, do_other env c method url data queryParams net h]
    simp [Event.isOperation]

/-! ### The dispatcher -/

/-- C1 (as the code has it): for a verb outside GET, POST, PATCH, DELETE,
`Client.do` invokes no request operation (the log gains only the entry of the
dispatch itself and the remote service is untouched) and returns `read(nil)`
together with a nil error. -/
theorem do_unsupported_method (env : Deps W Request Resp F) (c : Client Request)
    (method url data : String) (queryParams : List String) (net : Net W Request)
    (h : method ∉ ["GET", "POST", "PATCH", "DELETE"]) :
    (Client.do env c method url data queryParams net).err = none ∧
    (Client.do env c method url data queryParams net).value = env.read [] ∧
    (Client.do env c method url data queryParams net).net.world = net.world ∧
    (Client.do env c method url data queryParams net).net.trace =
      net.trace ++ [Event.dispatch method url data queryParams] ∧
    (∀ e ∈ (Client.do env c method url data queryParams net).net.trace.drop net.trace.length,
      e.isOperation = false) := by
  rw [do_other env c method url data queryParams net h]
  refine ⟨rfl, rfl, rfl, rfl, ?_⟩
  intro e he
  rw [List.drop_left] at he
  simp only [List.mem_singleton] at he
  subst he
  rfl

/-- C1, a concrete run of `do_unsupported_method` with the verb PUT. -/
theorem do_unsupported_method_witness :
    "PUT" ∉ ["GET", "POST", "PATCH", "DELETE"] ∧
    (Client.do loopback client0 "PUT" "/users" "" [] net0).err = none ∧
    (Client.do loopback client0 "PUT" "/users" "" [] net0).value = loopback.read [] ∧
    (Client.do loopback client0 "PUT" "/users" "" [] net0).net.world = net0.world ∧
    (Client.do loopback client0 "PUT" "/users" "" [] net0).net.trace =
      net0.trace ++ [Event.dispatch "PUT" "/users" "" []] ∧
    (∀ e ∈ (Client.do loopback client0 "PUT" "/users" "" [] net0).net.trace.drop
        net0.trace.length, e.isOperation = false) :=
  ⟨by decide, do_unsupported_method loopback client0 "PUT" "/users" "" [] net0 (by decide)⟩

/-- C1 fails as stated: with the verb PUT, which is none of GET, POST, PATCH,
DELETE, `Client.do` returns a nil error. -/
theorem unsupported_verb_returns_nil_error :
    "PUT" ∉ ["GET", "POST", "PATCH", "DELETE"] ∧
    ¬ ((Client.do loopback client0 "PUT" "/users" "" [] net0).err ≠ none) := by
  decide

/-- C4, with `updateRequest` as the spec describes it. Every request operation a
call of `Client.do` invokes has as receiver `updateRequest` applied to the
client's `ClientID`, `ClientSecret`, `Fingerprint`, `IP`, in that order, as they
are at that call: the request state carrying exactly those four values. A
supported verb invokes exactly one operation. For two successive calls on the
same client with the four fields overwritten in between: the first call's
operation carries the old four values and its log entries stay as they were;
the second call's operation carries the new four values; the whole outcome of
either call is the same whatever request state the client held when the call
began, so nothing captured by an earlier call is used; and for each of the four
verbs the second call is the matching operation run on the request state made
of the new values. -/
theorem do_refreshes_request_each_call {W Resp F : Type}
    (env : Deps W RequestContext Resp F) (c : Client RequestContext)
    (m₁ u₁ d₁ : String) (q₁ : List String) (net : Net W RequestContext)
    (clientID clientSecret fingerprint ip : String)
    (m₂ u₂ d₂ : String) (q₂ : List String) :
    let senv := withSpecUpdateRequest env
    let r₁ := Client.do senv c m₁ u₁ d₁ q₁ net
    let c₂ : Client RequestContext :=
      { r₁.client with
        ClientID := clientID, ClientSecret := clientSecret, Fingerprint := fingerprint, IP := ip }
    let r₂ := Client.do senv c₂ m₂ u₂ d₂ q₂ r₁.net
    let old : RequestContext :=
      { clientID := c.ClientID, clientSecret := c.ClientSecret, fingerprint := c.Fingerprint,
        ipAddress := c.IP }
    let new : RequestContext :=
      { clientID := clientID, clientSecret := clientSecret, fingerprint := fingerprint,
        ipAddress := ip }
    (∀ e ∈ r₁.net.trace.drop net.trace.length, e.isOperation = true →
      e.receiver? = some (RequestContext.updateRequest c.request
        c.ClientID c.ClientSecret c.Fingerprint c.IP)) ∧
    (∀ e ∈ r₁.net.trace.drop net.trace.length, e.isOperation = true →
      e.receiver? = some old) ∧
    ((r₁.net.trace.drop net.trace.length).filter Event.isOperation).length =
      (if m₁ ∈ ["GET", "POST", "PATCH", "DELETE"] then 1 else 0) ∧
    (∀ q : RequestContext, Client.do senv { c with request := q } m₁ u₁ d₁ q₁ net = r₁) ∧
    r₂.net.trace.take r₁.net.trace.length = r₁.net.trace ∧
    (∀ e ∈ r₂.net.trace.drop r₁.net.trace.length, e.isOperation = true →
      e.receiver? = some (RequestContext.updateRequest r₁.client.request
        clientID clientSecret fingerprint ip)) ∧
    (∀ e ∈ r₂.net.trace.drop r₁.net.trace.length, e.isOperation = true →
      e.receiver? = some new) ∧
    ((r₂.net.trace.drop r₁.net.trace.length).filter Event.isOperation).length =
      (if m₂ ∈ ["GET", "POST", "PATCH", "DELETE"] then 1 else 0) ∧
    (∀ q : RequestContext, Client.do senv { c₂ with request := q } m₂ u₂ d₂ q₂ r₁.net = r₂) ∧
    Client.do senv c₂ "GET" u₂ d₂ q₂ r₁.net =
      finishOp senv { c₂ with request := new }
        (r₁.net.trace ++ [Event.dispatch "GET" u₂ d₂ q₂]) (.get new u₂ q₂)
        (env.Get new u₂ q₂ r₁.net.world) ∧
    Client.do senv c₂ "POST" u₂ d₂ q₂ r₁.net =
      finishOp senv { c₂ with request := new }
        (r₁.net.trace ++ [Event.dispatch "POST" u₂ d₂ q₂]) (.post new u₂ d₂ q₂)
        (env.Post new u₂ d₂ q₂ r₁.net.world) ∧
    Client.do senv c₂ "PATCH" u₂ d₂ q₂ r₁.net =
      finishOp senv { c₂ with request := new }
        (r₁.net.trace ++ [Event.dispatch "PATCH" u₂ d₂ q₂]) (.patch new u₂ d₂ q₂)
        (env.Patch new u₂ d₂ q₂ r₁.net.world) ∧
    Client.do senv c₂ "DELETE" u₂ d₂ q₂ r₁.net =
      finishOp senv { c₂ with request := new }
        (r₁.net.trace ++ [Event.dispatch "DELETE" u₂ d₂ q₂]) (.delete new u₂)
        (env.Delete new u₂ r₁.net.world) := by
  intro senv r₁ c₂ r₂ old new
  refine ⟨?_, ?_, ?_, ?_, ?_, ?_, ?_, ?_, ?_, ?_, ?_, ?_, ?_⟩
  · intro e he hop
    exact do_new_operations senv c m₁ u₁ d₁ q₁ net e he hop
  · intro e he hop
    exact do_new_operations senv c m₁ u₁ d₁ q₁ net e he hop
  · exact do_operation_count senv c m₁ u₁ d₁ q₁ net
  · intro q
    rfl
  · exact do_trace_extends senv c₂ m₂ u₂ d₂ q₂ r₁.net
  · intro e he hop
    exact do_new_operations senv c₂ m₂ u₂ d₂ q₂ r₁.net e he hop
  · intro e he hop
    exact do_new_operations senv c₂ m₂ u₂ d₂ q₂ r₁.net e he hop
  · exact do_operation_count senv c₂ m₂ u₂ d₂ q₂ r₁.net
  · intro q
    rfl
  · exact do_get senv c₂ u₂ d₂ q₂ r₁.net
  · exact do_post senv c₂ u₂ d₂ q₂ r₁.net
  · exact do_patch senv c₂ u₂ d₂ q₂ r₁.net
  · exact do_delete senv c₂ u₂ d₂ q₂ r₁.net

/-- C5: for each supported verb `Client.do` invokes exactly the matching request
operation, once, on the refreshed request state, and returns `read(body)` and
the operation's error unchanged: GET calls `Get(url, queryParams)`, POST
`Post(url, data, queryParams)`, PATCH `Patch(url, data, queryParams)` and
DELETE `Delete(url)`. -/
theorem do_supported_verbs (env : Deps W Request Resp F) (c : Client Request)
    (url data : String) (queryParams : List String) (net : Net W Request) :
    let req := env.updateRequest c.request c.ClientID c.ClientSecret c.Fingerprint c.IP
    let g := env.Get req url queryParams net.world
    let p := env.Post req url data queryParams net.world
    let a := env.Patch req url data queryParams net.world
    let d := env.Delete req url net.world
    ((Client.do env c "GET" url data queryParams net).value = env.read g.body ∧
     (Client.do env c "GET" url data queryParams net).err = g.err ∧
     (Client.do env c "GET" url data queryParams net).net.world = g.world ∧
     (Client.do env c "GET" url data queryParams net).net.trace =
        net.trace ++ [.dispatch "GET" url data queryParams, .get req url queryParams]) ∧
    ((Client.do env c "POST" url data queryParams net).value = env.read p.body ∧
     (Client.do env c "POST" url data queryParams net).err = p.err ∧
     (Client.do env c "POST" url data queryParams net).net.world = p.world ∧
     (Client.do env c "POST" url data queryParams net).net.trace =
        net.trace ++ [.dispatch "POST" url data queryParams, .post req url data queryParams]) ∧
    ((Client.do env c "PATCH" url data queryParams net).value = env.read a.body ∧
     (Client.do env c "PATCH" url data queryParams net).err = a.err ∧
     (Client.do env c "PATCH" url data queryParams net).net.world = a.world ∧
     (Client.do env c "PATCH" url data queryParams net).net.trace =
        net.trace ++ [.dispatch "PATCH" url data queryParams, .patch req url data queryParams]) ∧
    ((Client.do env c "DELETE" url data queryParams net).value = env.read d.body ∧
     (Client.do env c "DELETE" url data queryParams net).err = d.err ∧
     (Client.do env c "DELETE" url data queryParams net).net.world = d.world ∧
     (Client.do env c "DELETE" url data queryParams net).net.trace =
        net.trace ++ [.dispatch "DELETE" url data queryParams, .delete req url]) := by
  intro req g p a d
  rw [do_get, do_post, do_patch, do_delete]
  simp [finishOp, req, g, p, a, d]

/-! ### The resource facade -/

/-- C2: `Client.GetUser` enters the dispatcher with verb GET, an empty body and
the caller's `queryParams`; the URL is `buildURL(usersURL, UserID)` followed by
`?full_dehydrate=yes` when `fullDehydrate` is false, and `buildURL(usersURL,
UserID)` itself when `fullDehydrate` is true. The same URL and parameters reach
`Get`. -/
theorem GetUser_dispatch [Inhabited Request] [Inhabited Resp] [Inhabited F]
    (env : Deps W Request Resp F) (c : Client Request)
    (UserID : String) (queryParams : List String) (net : Net W Request) :
    let req := env.updateRequest c.request c.ClientID c.ClientSecret c.Fingerprint c.IP
    (Client.GetUser env c UserID false queryParams net).net.trace =
      net.trace ++
        [.dispatch "GET" (env.buildURL env.usersURL UserID ++ "?full_dehydrate=yes") ""
            queryParams,
         .get req (env.buildURL env.usersURL UserID ++ "?full_dehydrate=yes") queryParams] ∧
    (Client.GetUser env c UserID true queryParams net).net.trace =
      net.trace ++
        [.dispatch "GET" (env.buildURL env.usersURL UserID) "" queryParams,
         .get req (env.buildURL env.usersURL UserID) queryParams] := by
  intro req
  simp [Client.GetUser, do_get, finishOp, req]

/-- C3: `Client.GetPublicKey` issues one GET, with an empty body and no query
parameters, to `clientURL` followed by `?issue_public_key=YES&scope=` and the
scope: the fixed default scope string when no scope argument is given, and the
first scope argument when there is one, whatever arguments follow it. The call
is the dispatcher's GET at that URL: the result is `read` of the body `Get`
returned there, the error is the one `Get` returned, the remote service and the
request state are as `Get` left them, and the log gains the dispatch and that
one `Get`. -/
theorem GetPublicKey_url (env : Deps W Request Resp F) (c : Client Request)
    (scope : String) (more : List String) (net : Net W Request) :
    let req := env.updateRequest c.request c.ClientID c.ClientSecret c.Fingerprint c.IP
    let dflt := env.clientURL ++ "?issue_public_key=YES&scope=" ++ "OAUTH|POST,USERS|POST,USERS|GET,USER|GET,USER|PATCH,SUBSCRIPTIONS|GET,SUBSCRIPTIONS|POST,SUBSCRIPTION|GET,SUBSCRIPTION|PATCH,CLIENT|REPORTS,CLIENT|CONTROLS"
    let own := env.clientURL ++ "?issue_public_key=YES&scope=" ++ scope
    let g₀ := env.Get req dflt [] net.world
    let g₁ := env.Get req own [] net.world
    ((Client.GetPublicKey env c [] net).net.trace =
      net.trace ++
        [.dispatch "GET" (env.clientURL ++ "?issue_public_key=YES&scope=" ++ "OAUTH|POST,USERS|POST,USERS|GET,USER|GET,USER|PATCH,SUBSCRIPTIONS|GET,SUBSCRIPTIONS|POST,SUBSCRIPTION|GET,SUBSCRIPTION|PATCH,CLIENT|REPORTS,CLIENT|CONTROLS") "" [],
         .get req (env.clientURL ++ "?issue_public_key=YES&scope=" ++ "OAUTH|POST,USERS|POST,USERS|GET,USER|GET,USER|PATCH,SUBSCRIPTIONS|GET,SUBSCRIPTIONS|POST,SUBSCRIPTION|GET,SUBSCRIPTION|PATCH,CLIENT|REPORTS,CLIENT|CONTROLS") []] ∧
    (Client.GetPublicKey env c (scope :: more) net).net.trace =
      net.trace ++
        [.dispatch "GET" (env.clientURL ++ "?issue_public_key=YES&scope=" ++ scope) "" [],
         .get req (env.clientURL ++ "?issue_public_key=YES&scope=" ++ scope) []]) ∧
    (Client.GetPublicKey env c [] net = Client.do env c "GET" dflt "" [] net ∧
     (Client.GetPublicKey env c [] net).value = env.read g₀.body ∧
     (Client.GetPublicKey env c [] net).err = g₀.err ∧
     (Client.GetPublicKey env c [] net).net.world = g₀.world ∧
     (Client.GetPublicKey env c [] net).client =
        { c with request := g₀.request }) ∧
    (Client.GetPublicKey env c (scope :: more) net = Client.do env c "GET" own "" [] net ∧
     (Client.GetPublicKey env c (scope :: more) net).value = env.read g₁.body ∧
     (Client.GetPublicKey env c (scope :: more) net).err = g₁.err ∧
     (Client.GetPublicKey env c (scope :: more) net).net.world = g₁.world ∧
     (Client.GetPublicKey env c (scope :: more) net).client =
        { c with request := g₁.request }) := by
  intro req dflt own g₀ g₁
  have h₀ : Client.GetPublicKey env c [] net = Client.do env c "GET" dflt "" [] net := by
    simp [Client.GetPublicKey, dflt]
  have h₁ : Client.GetPublicKey env c (scope :: more) net =
      Client.do env c "GET" own "" [] net := by
    simp [Client.GetPublicKey, own]
  refine ⟨?_, ⟨h₀, ?_⟩, ⟨h₁, ?_⟩⟩
  · simp [Client.GetPublicKey, do_get, finishOp, req]
  · rw [h₀, do_get]
    simp [finishOp, req, g₀]
  · rw [h₁, do_get]
    simp [finishOp, req, g₁]

/-- C6: the `User` returned by `Client.GetUser` is non-nil, has `Response` equal
to the mapping the dispatcher returned and `FullDehydrate` equal to the
argument; the `User` returned by `Client.CreateUser` is non-nil and has
`Response` equal to the mapping the dispatcher returned; both return the
dispatcher's error unchanged, nil or not. -/
theorem user_response_fields [Inhabited Request] [Inhabited Resp] [Inhabited F]
    (env : Deps W Request Resp F) (c : Client Request)
    (UserID data : String) (fullDehydrate : Bool) (queryParams : List String)
    (net : Net W Request) :
    let url := if fullDehydrate != true
      then env.buildURL env.usersURL UserID ++ "?full_dehydrate=yes"
      else env.buildURL env.usersURL UserID
    let g := Client.do env c "GET" url "" queryParams net
    let p := Client.do env c "POST" env.usersURL data queryParams net
    (∃ user : User F Request Resp,
      (Client.GetUser env c UserID fullDehydrate queryParams net).value = some user ∧
      user.Response = g.value ∧ user.FullDehydrate = fullDehydrate) ∧
    (Client.GetUser env c UserID fullDehydrate queryParams net).err = g.err ∧
    (∃ user : User F Request Resp,
      (Client.CreateUser env c data queryParams net).value = some user ∧
      user.Response = p.value) ∧
    (Client.CreateUser env c data queryParams net).err = p.err := by
  intro url g p
  exact ⟨⟨_, rfl, rfl, rfl⟩, rfl, ⟨_, rfl, rfl⟩, rfl⟩

/-- C7 (as the code has it): the error `Client.GetUser` and `Client.CreateUser`
return is the dispatcher's error and nothing else; the error reported by the
structural decode is discarded. The returned `User` carries the named fields as
the decode left them (and, for `CreateUser`, the `FullDehydrate` it left). -/
theorem user_error_is_dispatch_error [Inhabited Request] [Inhabited Resp] [Inhabited F]
    (env : Deps W Request Resp F) (c : Client Request)
    (UserID data : String) (fullDehydrate : Bool) (queryParams : List String)
    (net : Net W Request) :
    let url := if fullDehydrate != true
      then env.buildURL env.usersURL UserID ++ "?full_dehydrate=yes"
      else env.buildURL env.usersURL UserID
    let g := Client.do env c "GET" url "" queryParams net
    let p := Client.do env c "POST" env.usersURL data queryParams net
    let zero : User F Request Resp := User.zero
    (Client.GetUser env c UserID fullDehydrate queryParams net).err = g.err ∧
    (∃ user : User F Request Resp,
      (Client.GetUser env c UserID fullDehydrate queryParams net).value = some user ∧
      user.named = (env.Decode g.value zero.toExported).1.named) ∧
    (Client.CreateUser env c data queryParams net).err = p.err ∧
    (∃ user : User F Request Resp,
      (Client.CreateUser env c data queryParams net).value = some user ∧
      user.named = (env.Decode p.value zero.toExported).1.named ∧
      user.FullDehydrate = (env.Decode p.value zero.toExported).1.FullDehydrate) := by
  intro url g p zero
  exact ⟨rfl, ⟨_, rfl, rfl⟩, rfl, ⟨_, rfl, rfl, rfl⟩⟩

/-- C7 fails as stated: here the structural decode of the response reports an
error, in `GetUser` and in `CreateUser`, and both operations return a nil
error. -/
theorem decode_error_not_returned :
    (loopback.Decode (Client.do loopback client0 "GET" "/users/u1" "" [] net0).value
        (User.zero : User String (List String) Bytes).toExported).2 ≠ none ∧
    ¬ ((Client.GetUser loopback client0 "u1" true [] net0).err ≠ none) ∧
    (loopback.Decode (Client.do loopback client0 "POST" "/users" "" [] net0).value
        (User.zero : User String (List String) Bytes).toExported).2 ≠ none ∧
    ¬ ((Client.CreateUser loopback client0 "" [] net0).err ≠ none) := by
  decide

/-- C8: the `User` returned by `Client.GetUser` and by `Client.CreateUser` has as
request state `updateRequest` applied to the zero request with the client's
`ClientID`, `ClientSecret`, `Fingerprint` and `IP`, in that order, whatever the
response, the decode and the error were; the client still holds those four
values after the call. -/
theorem user_request_from_credentials [Inhabited Request] [Inhabited Resp] [Inhabited F]
    (env : Deps W Request Resp F) (c : Client Request)
    (UserID data : String) (fullDehydrate : Bool) (queryParams : List String)
    (net : Net W Request) :
    let g := Client.GetUser env c UserID fullDehydrate queryParams net
    let p := Client.CreateUser env c data queryParams net
    (∃ user : User F Request Resp, g.value = some user ∧
      user.request =
        env.updateRequest default c.ClientID c.ClientSecret c.Fingerprint c.IP) ∧
    (∃ user : User F Request Resp, p.value = some user ∧
      user.request =
        env.updateRequest default c.ClientID c.ClientSecret c.Fingerprint c.IP) ∧
    (g.client.ClientID = c.ClientID ∧ g.client.ClientSecret = c.ClientSecret ∧
      g.client.Fingerprint = c.Fingerprint ∧ g.client.IP = c.IP) ∧
    (p.client.ClientID = c.ClientID ∧ p.client.ClientSecret = c.ClientSecret ∧
      p.client.Fingerprint = c.Fingerprint ∧ p.client.IP = c.IP) := by
  intro g p
  have hg := do_credentials env c "GET"
    (if fullDehydrate != true then env.buildURL env.usersURL UserID ++ "?full_dehydrate=yes"
      else env.buildURL env.usersURL UserID) "" queryParams net
  have hp := do_credentials env c "POST" env.usersURL data queryParams net
  obtain ⟨g1, g2, g3, g4⟩ := hg
  obtain ⟨p1, p2, p3, p4⟩ := hp
  refine ⟨⟨_, rfl, ?_⟩, ⟨_, rfl, ?_⟩, ⟨g1, g2, g3, g4⟩, ⟨p1, p2, p3, p4⟩⟩
  · show env.updateRequest default _ _ _ _ = _
    rw [g1, g2, g3, g4]
  · show env.updateRequest default _ _ _ _ = _
    rw [p1, p2, p3, p4]

/-! ### Developer mode -/

/-- The value of `developerMode` after one call of `New`. -/
theorem New_flag [Inhabited Request]
    (clientID clientSecret ipAddress fingerprint : String) (devMode : List Bool)
    (developerMode : Bool) :
    (New clientID clientSecret ipAddress fingerprint devMode developerMode :
        Client Request × Bool).2 =
      if devMode[0]? = some true then true else developerMode := by
  cases devMode with
  | nil => simp [New]
  | cons x xs => cases x <;> simp [New]

/-- The value of `developerMode` after a sequence of calls of `New`. -/
theorem developerModeAfter_true_iff (calls : List (List Bool)) (developerMode : Bool) :
    developerModeAfter calls developerMode = true ↔
      developerMode = true ∨ ∃ d ∈ calls, d[0]? = some true := by
  unfold developerModeAfter
  induction calls generalizing developerMode with
  | nil => simp
  | cons d ds ih =>
    rw [List.foldl_cons, ih, New_flag]
    by_cases hd : d[0]? = some true
    · simp [hd]
    · simp [hd]

/-- C10: `New` sets `developerMode` to true when its first `devMode` argument is
present and true and leaves it unchanged otherwise, so a flag that is true
stays true; after a sequence of calls the flag is true iff it was true before
or some call passed a true first `devMode` argument. The client returned has
`ClientID`, `ClientSecret`, `IP`, `Fingerprint` equal to the arguments
`clientID`, `clientSecret`, `ipAddress`, `fingerprint`. -/
theorem New_developerMode [Inhabited Request]
    (clientID clientSecret ipAddress fingerprint : String) (devMode : List Bool)
    (developerMode : Bool) (calls : List (List Bool)) :
    let r : Client Request × Bool :=
      New clientID clientSecret ipAddress fingerprint devMode developerMode
    (r.2 = if devMode[0]? = some true then true else developerMode) ∧
    (New clientID clientSecret ipAddress fingerprint devMode true :
      Client Request × Bool).2 = true ∧
    (developerModeAfter calls developerMode = true ↔
      developerMode = true ∨ ∃ d ∈ calls, d[0]? = some true) ∧
    r.1.ClientID = clientID ∧ r.1.ClientSecret = clientSecret ∧
    r.1.IP = ipAddress ∧ r.1.Fingerprint = fingerprint := by
  intro r
  exact ⟨New_flag clientID clientSecret ipAddress fingerprint devMode developerMode,
    by rw [New_flag]; simp,
    developerModeAfter_true_iff calls developerMode, rfl, rfl, rfl, rfl⟩

end theorems

end synapse

namespace wrapper

/-- C9: `GetClientTransactions` hands `handleRequestMulti` the credentials it
was given, the method GET, the URL `_url` followed by `/trans`, the result key
`trans` and nil parameters; `GetUserTransactions` does the same with the URL
`_usersURL`, `/`, the user id and `/trans`. -/
theorem transactions_requests {ClientCredentials Users Params : Type} [Inhabited Params]
    (env : Env ClientCredentials Users Params) (cred : ClientCredentials) (userID : String) :
    GetClientTransactions env cred =
      env.handleRequestMulti cred "GET" (env._url ++ "/trans") "trans" default ∧
    GetUserTransactions env cred userID =
      env.handleRequestMulti cred "GET" (env._usersURL ++ "/" ++ userID ++ "/trans") "trans"
        default :=
  ⟨rfl, rfl⟩

end wrapper
